import Mathlib

/-!
Verification of the `eto-smart-zone` calculation pipeline.

The development shallowly embeds the two Home Assistant custom components of
the repository:

* `custom_components/eto_smart_zone/api.py` — the smart-zone irrigation
  duration calculator (`ETOSmartZoneClient`): entity-state fetching (`_get`),
  data collection with exception wrapping (`collect_calculation_data`) and the
  runtime computation (`calc_smart_zone`).
* `custom_components/eto_irrigation/api_helpers.py` and
  `custom_components/eto_irrigation/api.py` — the FAO-56 Penman-Monteith
  ETo calculator (`calc_eto` and its helper functions) and the simple
  single-zone duration calculator (`calc_duration`).

Numbers held in Python floats are modelled as exact rationals (`ℚ`) where the
code is purely arithmetic, and as real numbers (`ℝ`) where the code calls
transcendental functions (`math.cos`, `math.exp`, `math.acos`, ...).  Python's
`round` builtin (round-half-to-even) is modelled by `pyround`.  Python
exceptions are modelled by explicit `Except` results.
-/

/-- Python's `round` builtin on a rational: nearest integer, ties to even. -/
def pyround (x : ℚ) : ℤ :=
  let f := ⌊x⌋
  let r := x - (f : ℚ)
  if r < 1 / 2 then f
  else if 1 / 2 < r then f + 1
  else if f % 2 = 0 then f else f + 1

/-- Python exception kinds that can arise in the smart-zone client
(`custom_components/eto_smart_zone/api.py`): builtin `ValueError` and
`ZeroDivisionError`, and the component's own hierarchy
`ETOApiSmartZoneError` (general), `ETOApiSmartZoneCalculationError`,
`ETOApiSmartZoneCalculationStartupError`.  The isomorphic hierarchy of
`eto_irrigation/api.py` (`ETOApiClientError`, ...) is modelled by the same
kinds. -/
inductive PyExc : Type
  | valueError
  | zeroDivisionError
  | zoneGeneral
  | zoneCalculation
  | zoneCalculationStartup
deriving DecidableEq, Repr

/-- State of a Home Assistant entity as seen through `StateMachine.get`:
the entity may be absent (`get` returns `None`), may carry the literal string
state `"unknown"`, may carry a string that does not parse as a float, or may
carry a numeric state. -/
inductive EntityState : Type
  | missing
  | unknown
  | unparsable
  | value (q : ℚ)
deriving DecidableEq

/-- Embeds `ETOSmartZoneClient._get` (`eto_smart_zone/api.py`): a present
numeric state is converted with `float(...)`; the string `"unknown"` raises
`ETOApiSmartZoneCalculationStartupError`; a present non-numeric state makes
`float(...)` raise `ValueError`; an absent state raises
`ETOApiSmartZoneCalculationError`. -/
def ETOSmartZoneClient_get (s : EntityState) : Except PyExc ℚ :=
  match s with
  | .missing => .error .zoneCalculation
  | .unknown => .error .zoneCalculationStartup
  | .unparsable => .error .valueError
  | .value q => .ok q

/-- Embeds `ETOApiClient._get` (`eto_irrigation/api.py`), which is line-for-line
identical to `ETOSmartZoneClient._get` up to the names of the raised exception
classes (`ETOApiClientCalculationStartupError` / `ETOApiClientCalculationError`,
modelled by the same `PyExc` kinds). -/
def ETOApiClient_get (s : EntityState) : Except PyExc ℚ :=
  match s with
  | .missing => .error .zoneCalculation
  | .unknown => .error .zoneCalculationStartup
  | .unparsable => .error .valueError
  | .value q => .ok q

/-- The `_calc_data` dictionary of `ETOSmartZoneClient`.  The entries `eto` and
`rain` start as the string `STATE_UNKNOWN` (modelled `none`) and become numeric
once fetched; `raw_runtime` is not initialised by `__init__` at all (modelled
`none` until first written); `throughput`, `scale` and `max_mins` echo the
constructor arguments. -/
structure SmartZoneData : Type where
  runtime : ℤ
  eto : Option ℚ
  rain : Option ℚ
  raw_runtime : Option ℤ
  throughput : ℤ
  scale : ℤ
  max_mins : ℤ
deriving DecidableEq, Repr

/-- Embeds the `_calc_data` initialisation in `ETOSmartZoneClient.__init__`:
`runtime = 0`, `eto = rain = STATE_UNKNOWN`, and the three configuration
entries copied from the constructor arguments (`raw_runtime` left unset). -/
def ETOSmartZoneClient_init (throughput scale max_mins : ℤ) : SmartZoneData :=
  { runtime := 0
    eto := none
    rain := none
    raw_runtime := none
    throughput := throughput
    scale := scale
    max_mins := max_mins }

/-- Embeds `ETOSmartZoneClient.calc_smart_zone`.  When both `eto` and `rain`
are numeric: `delta = rain - eto`; if `delta < 0` then
`reqd = abs(delta) / throughput * 60 * 60` (a `ZeroDivisionError` when the
configured throughput is `0`), `runtime = round(reqd * scale / 100)` which is
also stored into `raw_runtime`, and `runtime` is finally replaced by
`max_mins * 60` when it exceeds that cap; if `delta >= 0` only
`runtime = 0` is written.  When either input is still `STATE_UNKNOWN` nothing
is written. -/
def calc_smart_zone (c : SmartZoneData) : Except PyExc SmartZoneData :=
  match c.eto, c.rain with
  | some e, some r =>
    let delta : ℚ := r - e
    if delta < 0 then
      if c.throughput = 0 then .error .zeroDivisionError
      else
        let reqd : ℚ := |delta| / (c.throughput : ℚ) * 60 * 60
        let runtime : ℤ := pyround (reqd * (c.scale : ℚ) / 100)
        let c1 := { c with runtime := runtime, raw_runtime := some runtime }
        if runtime > c.max_mins * 60 then
          .ok { c1 with runtime := c.max_mins * 60 }
        else
          .ok c1
    else
      .ok { c with runtime := 0 }
  | _, _ => .ok c

/-- Embeds `ETOSmartZoneClient.collect_calculation_data`: fetch the ETo
entity, then the rain entity, then run `calc_smart_zone`; a `ValueError`
escaping the `try` block is re-raised as `ETOApiSmartZoneCalculationError`,
and any other exception (including `ZeroDivisionError` and the component's own
startup/calculation errors raised by `_get`) is re-raised as the general
`ETOApiSmartZoneError`. -/
def collect_calculation_data (etoS rainS : EntityState) (c : SmartZoneData) :
    Except PyExc SmartZoneData :=
  let body : Except PyExc SmartZoneData :=
    (ETOSmartZoneClient_get etoS).bind fun e =>
      (ETOSmartZoneClient_get rainS).bind fun r =>
        calc_smart_zone { c with eto := some e, rain := some r }
  match body with
  | .ok c1 => .ok c1
  | .error .valueError => .error .zoneCalculation
  | .error _ => .error .zoneGeneral

/-- Embeds `calc_duration` (`eto_irrigation/api_helpers.py`), the simple
single-zone duration: `delta = rain - eto`; if `delta < 0` the result is
`round(abs(delta) / throughput * 60 * 60)` (a `ZeroDivisionError` when
`throughput` is `0`), otherwise `0`. -/
def calc_duration (eto rain throughput : ℚ) : Except PyExc ℤ :=
  let delta : ℚ := rain - eto
  if delta < 0 then
    if throughput = 0 then .error .zeroDivisionError
    else .ok (pyround (|delta| / throughput * 60 * 60))
  else .ok 0

example : pyround ((5 : ℚ) / 2) = 2 := by norm_num [pyround]
example : pyround ((3 : ℚ) / 2) = 2 := by norm_num [pyround]
example : pyround ((-3 : ℚ) / 2) = -2 := by norm_num [pyround]
example : pyround ((-5 : ℚ) / 2) = -2 := by norm_num [pyround]
example : pyround ((23 : ℚ) / 10) = 2 := by norm_num [pyround]
example :
    calc_smart_zone
      { ETOSmartZoneClient_init 10 100 30 with eto := some 8, rain := some 0 } =
    .ok { ETOSmartZoneClient_init 10 100 30 with
            eto := some 8, rain := some 0,
            runtime := 1800, raw_runtime := some 2880 } := by
  norm_num [calc_smart_zone, ETOSmartZoneClient_init, pyround]
example :
    calc_duration 8 0 10 = .ok 2880 := by
  norm_num [calc_duration, pyround]

/-- C4: in simple (single-zone) mode, for every `eto`, `rain` and
`throughput > 0`: if `rain - eto ≥ 0` the returned runtime is `0`; if
`rain - eto < 0` the returned runtime equals
`round(|rain - eto| / throughput × 3600)`, with no percentage scaling and no
maximum-duration cap applied (the returned value is exactly the rounded
quotient). -/
theorem calc_duration_spec (eto rain throughput : ℚ) (ht : 0 < throughput) :
    (0 ≤ rain - eto → calc_duration eto rain throughput = .ok 0) ∧
    (rain - eto < 0 →
      calc_duration eto rain throughput =
        .ok (pyround (|rain - eto| / throughput * 60 * 60))) := by
  constructor
  · intro hge
    unfold calc_duration
    rw [if_neg (not_lt.mpr hge)]
  · intro hlt
    unfold calc_duration
    rw [if_pos hlt, if_neg (ne_of_gt ht)]

/-- Witness for `calc_duration_spec` at `eto = 8`, `rain = 0`,
`throughput = 10`. -/
theorem calc_duration_spec_witness :
    (0 : ℚ) < 10 ∧ ((0 : ℚ) - 8 < 0) ∧
    calc_duration 8 0 10 = .ok (pyround (|(0 : ℚ) - 8| / 10 * 60 * 60)) :=
  ⟨by norm_num, by norm_num,
    (calc_duration_spec 8 0 10 (by norm_num)).2 (by norm_num)⟩

/-- C9: the reading-fetch operation `_get` (both in `ETOSmartZoneClient` and
in `ETOApiClient`) raises the non-startup calculation error when the entity
lookup returns nothing, and the distinct startup error when the entity state
is exactly the string `"unknown"`; in both cases the result is an error, so no
calculation is attempted and no numeric default is produced. -/
theorem client_get_error_kinds :
    ETOSmartZoneClient_get .missing = .error .zoneCalculation ∧
    ETOSmartZoneClient_get .unknown = .error .zoneCalculationStartup ∧
    ETOApiClient_get .missing = .error .zoneCalculation ∧
    ETOApiClient_get .unknown = .error .zoneCalculationStartup ∧
    PyExc.zoneCalculation ≠ PyExc.zoneCalculationStartup :=
  ⟨rfl, rfl, rfl, rfl, by decide⟩

/-- When either input entry is still `STATE_UNKNOWN`, `calc_smart_zone`
takes the identity branch and writes nothing. -/
lemma smart_zone_run_skip (c : SmartZoneData) (h : c.eto = none ∨ c.rain = none) :
    calc_smart_zone c = .ok c := by
  unfold calc_smart_zone
  rcases h with h | h
  · rw [h]
  · rcases hce : c.eto with _ | e
    · rfl
    · rw [h]

/-- When rainfall covers the evapotranspiration demand (`0 ≤ rain - eto`),
`calc_smart_zone` writes `runtime = 0` and nothing else. -/
lemma smart_zone_run_covered (c : SmartZoneData) (e r : ℚ)
    (he : c.eto = some e) (hr : c.rain = some r) (hd : 0 ≤ r - e) :
    calc_smart_zone c = .ok { c with runtime := 0 } := by
  simp only [calc_smart_zone, he, hr]
  rw [if_neg (not_lt.mpr hd)]

/-- When there is a rainfall deficit and the configured throughput is nonzero,
`calc_smart_zone` stores the scaled rounded requirement into both `runtime`
and `raw_runtime`, then clamps `runtime` to `max_mins * 60`. -/
lemma smart_zone_run_deficit (c : SmartZoneData) (e r : ℚ)
    (he : c.eto = some e) (hr : c.rain = some r)
    (h0 : c.throughput ≠ 0) (hd : r - e < 0) :
    calc_smart_zone c = .ok { c with
      runtime :=
        min (pyround (|r - e| / (c.throughput : ℚ) * 60 * 60 * (c.scale : ℚ) / 100))
          (c.max_mins * 60),
      raw_runtime :=
        some (pyround (|r - e| / (c.throughput : ℚ) * 60 * 60 * (c.scale : ℚ) / 100)) } := by
  simp only [calc_smart_zone, he, hr]
  rw [if_pos hd, if_neg h0]
  by_cases hcl :
      pyround (|r - e| / (c.throughput : ℚ) * 60 * 60 * (c.scale : ℚ) / 100) >
        c.max_mins * 60
  · rw [if_pos hcl, min_eq_right (le_of_lt hcl)]
  · rw [if_neg hcl, min_eq_left (not_lt.mp hcl)]

/-- When there is a rainfall deficit and the configured throughput is `0`, the
division in `calc_smart_zone` raises `ZeroDivisionError`. -/
lemma smart_zone_run_zero_div (c : SmartZoneData) (e r : ℚ)
    (he : c.eto = some e) (hr : c.rain = some r)
    (h0 : c.throughput = 0) (hd : r - e < 0) :
    calc_smart_zone c = .error .zeroDivisionError := by
  simp only [calc_smart_zone, he, hr]
  rw [if_pos hd, if_pos h0]

/-- C10: `calc_smart_zone` never modifies the echoed configuration entries of
`_calc_data`: a successful invocation preserves `throughput`, `scale` and
`max_mins` (hence they still equal the values copied from the constructor
arguments by `ETOSmartZoneClient_init`), and also preserves `eto` and `rain` —
only `runtime` and `raw_runtime` are ever written by the calculation. -/
theorem calc_smart_zone_config_frame (c c' : SmartZoneData)
    (h : calc_smart_zone c = .ok c') :
    c'.throughput = c.throughput ∧ c'.scale = c.scale ∧
    c'.max_mins = c.max_mins ∧ c'.eto = c.eto ∧ c'.rain = c.rain := by
  rcases hce : c.eto with _ | e
  · rw [smart_zone_run_skip c (Or.inl hce)] at h
    injection h with h
    subst h
    exact ⟨rfl, rfl, rfl, hce, rfl⟩
  · rcases hcr : c.rain with _ | r
    · rw [smart_zone_run_skip c (Or.inr hcr)] at h
      injection h with h
      subst h
      exact ⟨rfl, rfl, rfl, hce, hcr⟩
    · by_cases hd : r - e < 0
      · by_cases h0 : c.throughput = 0
        · rw [smart_zone_run_zero_div c e r hce hcr h0 hd] at h
          exact absurd h (by simp)
        · rw [smart_zone_run_deficit c e r hce hcr h0 hd] at h
          injection h with h
          subst h
          exact ⟨rfl, rfl, rfl, hce, hcr⟩
      · rw [smart_zone_run_covered c e r hce hcr (not_lt.mp hd)] at h
        injection h with h
        subst h
        exact ⟨rfl, rfl, rfl, hce, hcr⟩

/-- Witness for `calc_smart_zone_config_frame` at the concrete data of the
spec's clamp scenario (`throughput = 10`, `scale = 100`, `max_mins = 30`,
`eto = 8`, `rain = 0`). -/
theorem calc_smart_zone_config_frame_witness :
    (calc_smart_zone
        { ETOSmartZoneClient_init 10 100 30 with eto := some 8, rain := some 0 } =
      .ok { ETOSmartZoneClient_init 10 100 30 with
              eto := some 8, rain := some 0,
              runtime := 1800, raw_runtime := some 2880 }) ∧
    ({ ETOSmartZoneClient_init 10 100 30 with
        eto := some 8, rain := some 0,
        runtime := 1800, raw_runtime := some 2880 } : SmartZoneData).throughput =
      ({ ETOSmartZoneClient_init 10 100 30 with
          eto := some 8, rain := some 0 } : SmartZoneData).throughput := by
  have h : calc_smart_zone
      { ETOSmartZoneClient_init 10 100 30 with eto := some 8, rain := some 0 } =
      .ok { ETOSmartZoneClient_init 10 100 30 with
              eto := some 8, rain := some 0,
              runtime := 1800, raw_runtime := some 2880 } := by
    norm_num [calc_smart_zone, ETOSmartZoneClient_init, pyround]
  exact ⟨h, (calc_smart_zone_config_frame _ _ h).1⟩

/-- C3: for every smart-zone computation on numeric inputs with
`throughput > 0` (and a configured `max_mins ≥ 1`, per the data model), the
run succeeds, the resulting `runtime` is at most `max_mins * 60`, and it is
`0` whenever `rain ≥ eto`, including the boundary case `rain = eto`. -/
theorem calc_smart_zone_clamp_invariant (c : SmartZoneData) (e r : ℚ)
    (he : c.eto = some e) (hr : c.rain = some r)
    (ht : 0 < c.throughput) (hm : 1 ≤ c.max_mins) :
    ∃ c', calc_smart_zone c = .ok c' ∧
      c'.runtime ≤ c.max_mins * 60 ∧ (e ≤ r → c'.runtime = 0) := by
  by_cases hd : r - e < 0
  · refine ⟨_, smart_zone_run_deficit c e r he hr ht.ne' hd, ?_, ?_⟩
    · exact min_le_right _ _
    · intro her
      exact absurd hd (not_lt.mpr (by linarith))
  · refine ⟨_, smart_zone_run_covered c e r he hr (not_lt.mp hd), ?_, fun _ => rfl⟩
    show (0 : ℤ) ≤ c.max_mins * 60
    nlinarith [hm]

/-- Witness for `calc_smart_zone_clamp_invariant` at the spec's clamp
scenario, including the boundary case `rain = eto` on a second data set. -/
theorem calc_smart_zone_clamp_invariant_witness :
    (0 : ℤ) < 10 ∧ (1 : ℤ) ≤ 30 ∧
    (∃ c', calc_smart_zone
        { ETOSmartZoneClient_init 10 100 30 with eto := some 8, rain := some 0 } =
        .ok c' ∧ c'.runtime ≤ 30 * 60 ∧ ((8 : ℚ) ≤ 0 → c'.runtime = 0)) ∧
    (∃ c', calc_smart_zone
        { ETOSmartZoneClient_init 10 100 30 with eto := some 5, rain := some 5 } =
        .ok c' ∧ c'.runtime ≤ 30 * 60 ∧ ((5 : ℚ) ≤ 5 → c'.runtime = 0)) :=
  ⟨by decide, by decide,
    calc_smart_zone_clamp_invariant _ 8 0 rfl rfl (by decide) (by decide),
    calc_smart_zone_clamp_invariant _ 5 5 rfl rfl (by decide) (by decide)⟩

/-- Counterexample to C2 as stated: with `eto = 1`, `rain = 0`,
`throughput = 1`, `scale = 50`, `max_mins = 1000`, the code stores `1800`
(the scaled value) into `raw_runtime`, not
`round(|deficit| / throughput × 3600) = 3600` as the claim requires; and in
the covered branch (`eto = rain = 5`, starting from a freshly constructed
client) `raw_runtime` is never written, so it is not `0` but still absent. -/
theorem calc_smart_zone_raw_runtime_cex :
    (calc_smart_zone
        { ETOSmartZoneClient_init 1 50 1000 with eto := some 1, rain := some 0 } =
      .ok { ETOSmartZoneClient_init 1 50 1000 with
              eto := some 1, rain := some 0,
              runtime := 1800, raw_runtime := some 1800 }) ∧
    pyround (|(0 : ℚ) - 1| / 1 * 60 * 60) = 3600 ∧
    (1800 : ℤ) ≠ 3600 ∧
    (calc_smart_zone
        { ETOSmartZoneClient_init 1 50 1000 with eto := some 5, rain := some 5 } =
      .ok { ETOSmartZoneClient_init 1 50 1000 with
              eto := some 5, rain := some 5, runtime := 0 }) ∧
    ({ ETOSmartZoneClient_init 1 50 1000 with
        eto := some 5, rain := some 5, runtime := 0 } : SmartZoneData).raw_runtime ≠
      some 0 := by
  refine ⟨?_, ?_, by decide, ?_, by decide⟩
  · norm_num [calc_smart_zone, ETOSmartZoneClient_init, pyround]
  · norm_num [pyround]
  · norm_num [calc_smart_zone, ETOSmartZoneClient_init]

/-- C2 (amended): in smart-zone mode with numeric inputs and
`throughput > 0`, when `deficit = rain - eto < 0` the code stores the single
value `round(|deficit| / throughput × 3600 × scale / 100)` — scaling is
applied before the one and only rounding — into `raw_runtime`, and stores
`min` of that same value and `max_mins × 60` into `runtime`; when
`deficit ≥ 0` it writes `runtime = 0` and leaves `raw_runtime` unwritten. -/
theorem calc_smart_zone_runtime_spec (c : SmartZoneData) (e r : ℚ)
    (he : c.eto = some e) (hr : c.rain = some r) (ht : 0 < c.throughput) :
    (r - e < 0 →
      calc_smart_zone c = .ok { c with
        runtime :=
          min (pyround (|r - e| / (c.throughput : ℚ) * 60 * 60 * (c.scale : ℚ) / 100))
            (c.max_mins * 60),
        raw_runtime :=
          some (pyround (|r - e| / (c.throughput : ℚ) * 60 * 60 * (c.scale : ℚ) / 100)) }) ∧
    (0 ≤ r - e → calc_smart_zone c = .ok { c with runtime := 0 }) :=
  ⟨fun hd => smart_zone_run_deficit c e r he hr ht.ne' hd,
   fun hd => smart_zone_run_covered c e r he hr hd⟩

/-- Witness for `calc_smart_zone_runtime_spec` at the spec's clamp scenario
(`throughput = 10`, `scale = 100`, `max_mins = 30`, `eto = 8`, `rain = 0`). -/
theorem calc_smart_zone_runtime_spec_witness :
    (0 : ℤ) < 10 ∧ ((0 : ℚ) - 8 < 0) ∧
    calc_smart_zone
      { ETOSmartZoneClient_init 10 100 30 with eto := some 8, rain := some 0 } =
    .ok { { ETOSmartZoneClient_init 10 100 30 with
              eto := some 8, rain := some 0 } with
            runtime :=
              min (pyround (|(0 : ℚ) - 8| /
                  (({ ETOSmartZoneClient_init 10 100 30 with
                      eto := some 8, rain := some 0 } : SmartZoneData).throughput : ℚ) *
                  60 * 60 *
                  (({ ETOSmartZoneClient_init 10 100 30 with
                      eto := some 8, rain := some 0 } : SmartZoneData).scale : ℚ) / 100))
                (({ ETOSmartZoneClient_init 10 100 30 with
                    eto := some 8, rain := some 0 } : SmartZoneData).max_mins * 60),
            raw_runtime :=
              some (pyround (|(0 : ℚ) - 8| /
                  (({ ETOSmartZoneClient_init 10 100 30 with
                      eto := some 8, rain := some 0 } : SmartZoneData).throughput : ℚ) *
                  60 * 60 *
                  (({ ETOSmartZoneClient_init 10 100 30 with
                      eto := some 8, rain := some 0 } : SmartZoneData).scale : ℚ) / 100)) } :=
  ⟨by decide, by norm_num,
    (calc_smart_zone_runtime_spec _ 8 0 rfl rfl (by decide)).1 (by norm_num)⟩

/-- Counterexample to C6 as stated: a zero configured throughput makes the
duration calculation raise `ZeroDivisionError`, which the broad
`except Exception` handler of `collect_calculation_data` re-raises as the
general `ETOApiSmartZoneError` — not as `ETOApiSmartZoneCalculationError`
as the claim states. -/
theorem collect_zero_throughput_cex :
    collect_calculation_data (.value 5) (.value 0)
      (ETOSmartZoneClient_init 0 100 30) = .error .zoneGeneral ∧
    PyExc.zoneGeneral ≠ PyExc.zoneCalculation := by
  constructor
  · have hz := smart_zone_run_zero_div
      { ETOSmartZoneClient_init 0 100 30 with eto := some 5, rain := some 0 }
      5 0 rfl rfl rfl (by norm_num)
    simp only [collect_calculation_data, ETOSmartZoneClient_get, Except.bind]
    rw [hz]
  · decide

/-- C6 (amended): a division by zero caused by a zero configured throughput
escapes `calc_smart_zone` as `ZeroDivisionError` and is surfaced by
`collect_calculation_data` as the general `ETOApiSmartZoneError` (not as
`ETOApiSmartZoneCalculationError`); since the broad handler also re-wraps the
transient startup error from `_get` into the same general error, the two
conditions are not distinguishable by kind at this boundary. -/
theorem collect_zero_throughput_general_error (c : SmartZoneData) (e r : ℚ)
    (h0 : c.throughput = 0) (hd : r - e < 0) :
    collect_calculation_data (.value e) (.value r) c = .error .zoneGeneral ∧
    ∀ (s : EntityState) (c2 : SmartZoneData),
      collect_calculation_data .unknown s c2 = .error .zoneGeneral := by
  constructor
  · have hz := smart_zone_run_zero_div
      { c with eto := some e, rain := some r } e r rfl rfl h0 hd
    simp only [collect_calculation_data, ETOSmartZoneClient_get, Except.bind]
    rw [hz]
  · intro s c2
    rfl

/-- Witness for `collect_zero_throughput_general_error` with
`throughput = 0`, `eto = 5`, `rain = 0`. -/
theorem collect_zero_throughput_general_error_witness :
    (ETOSmartZoneClient_init 0 100 30).throughput = 0 ∧ ((0 : ℚ) - 5 < 0) ∧
    collect_calculation_data (.value 5) (.value 0)
      (ETOSmartZoneClient_init 0 100 30) = .error .zoneGeneral :=
  ⟨rfl, by norm_num,
    (collect_zero_throughput_general_error _ 5 0 rfl (by norm_num)).1⟩

/-- Constant `K_TO_C_FACTOR` of `eto_irrigation/const.py`. -/
def K_TO_C_FACTOR : ℝ := 273.15

/-- Constant `SOLAR_CONSTANT` of `eto_irrigation/const.py` (MJ m-2 min-1). -/
def SOLAR_CONSTANT : ℝ := 0.0820

/-- Constant `STEFAN_BOLTZMANN_CONSTANT` of `eto_irrigation/const.py`. -/
def STEFAN_BOLTZMANN_CONSTANT : ℝ := 0.000000004903

/-- Embeds `c_to_k`: Celsius to Kelvin. -/
noncomputable def c_to_k (celcius : ℝ) : ℝ := celcius + K_TO_C_FACTOR

/-- Embeds `deg2rad`: angular degrees to radians. -/
noncomputable def deg2rad (degrees : ℝ) : ℝ := degrees * (Real.pi / 180.0)

/-- Internal constant `_MINLAT_RADIANS` of `api_helpers.py`. -/
noncomputable def MINLAT_RADIANS : ℝ := deg2rad (-90.0)

/-- Internal constant `_MAXLAT_RADIANS` of `api_helpers.py`. -/
noncomputable def MAXLAT_RADIANS : ℝ := deg2rad 90.0

/-- Internal constant `_MINSOLDEC_RADIANS` of `api_helpers.py`. -/
noncomputable def MINSOLDEC_RADIANS : ℝ := deg2rad (-23.5)

/-- Internal constant `_MAXSOLDEC_RADIANS` of `api_helpers.py`. -/
noncomputable def MAXSOLDEC_RADIANS : ℝ := deg2rad 23.5

/-- Internal constant `_MINSHA_RADIANS` of `api_helpers.py`. -/
def MINSHA_RADIANS : ℝ := 0.0

/-- Internal constant `_MAXSHA_RADIANS` of `api_helpers.py`. -/
noncomputable def MAXSHA_RADIANS : ℝ := deg2rad 180

/-- Embeds `_check_doy`: raises `ValueError` unless `1 <= doy <= 366`. -/
def check_doy (doy : ℤ) : Except String Unit :=
  if 1 ≤ doy ∧ doy ≤ 366 then .ok ()
  else .error "Day of the year (doy) must be in range 1-366"

open Classical in
/-- Embeds `_check_latitude_rad`: raises `ValueError` when the latitude in
radians lies outside `[_MINLAT_RADIANS, _MAXLAT_RADIANS]`. -/
noncomputable def check_latitude_rad (latitude : ℝ) : Except String Unit :=
  if MINLAT_RADIANS ≤ latitude ∧ latitude ≤ MAXLAT_RADIANS then .ok ()
  else .error "latitude outside valid range"

open Classical in
/-- Embeds `_check_sol_dec_rad`: raises `ValueError` when the solar
declination lies outside `[_MINSOLDEC_RADIANS, _MAXSOLDEC_RADIANS]`. -/
noncomputable def check_sol_dec_rad (sd : ℝ) : Except String Unit :=
  if MINSOLDEC_RADIANS ≤ sd ∧ sd ≤ MAXSOLDEC_RADIANS then .ok ()
  else .error "solar declination outside valid range"

open Classical in
/-- Embeds `_check_sunset_hour_angle_rad`: raises `ValueError` when the
sunset hour angle lies outside `[_MINSHA_RADIANS, _MAXSHA_RADIANS]`. -/
noncomputable def check_sunset_hour_angle_rad (sha : ℝ) : Except String Unit :=
  if MINSHA_RADIANS ≤ sha ∧ sha ≤ MAXSHA_RADIANS then .ok ()
  else .error "sunset hour angle outside valid range"

/-- Embeds `wind_speed` (step 3, eq. 7): reduce a wind speed observed at
`height` metres to the 2 m reference. -/
noncomputable def wind_speed (wind height : ℝ) : ℝ :=
  wind * 4.87 / Real.log (67.8 * height - 5.42)

/-- Embeds `delta_svp` (step 4, eq. 9): slope of the saturation vapour
pressure curve. -/
noncomputable def delta_svp (t : ℝ) : ℝ :=
  4098 * (0.6108 * Real.exp (17.27 * t / c_to_k t)) / c_to_k t ^ 2

/-- Embeds `atm_pressure` (step 5, eq. 10): atmospheric pressure from
altitude (`math.pow` with real exponent `5.26` is `Real.rpow`). -/
noncomputable def atm_pressure (altitude : ℝ) : ℝ :=
  ((293.0 - 0.0065 * altitude) / 293.0) ^ (5.26 : ℝ) * 101.3

/-- Embeds `psy_const` (step 6, eq. 11): psychrometric constant. -/
noncomputable def psy_const (atmos_pres : ℝ) : ℝ := 0.000665 * atmos_pres

/-- Embeds `delta_term` (step 7, eq. 12). -/
noncomputable def delta_term (slope psycho wind_speed : ℝ) : ℝ :=
  slope / (psycho * (1 + 0.34 * wind_speed) + slope)

/-- Embeds `psi_term` (step 8, eq. 13). -/
noncomputable def psi_term (slope psycho wind_speed : ℝ) : ℝ :=
  psycho / (slope + psycho * (1 + 0.34 * wind_speed))

/-- Embeds `temperature_term` (step 9, eq. 14). -/
noncomputable def temperature_term (mean_temp wind_speed : ℝ) : ℝ :=
  900 / (mean_temp + 273) * wind_speed

/-- Embeds `svp_from_t` (step 10, eqs. 15-17): saturation vapour pressure. -/
noncomputable def svp_from_t (t : ℝ) : ℝ :=
  0.6108 * Real.exp (17.27 * t / c_to_k t)

/-- Embeds `ea_from_rh` (step 11, eq. 19): the code multiplies a saturation
vapour pressure by a humidity fraction. -/
noncomputable def ea_from_rh (t h : ℝ) : ℝ := t * h

/-- Embeds `inv_rel_dist_earth_sun` (step 12, eq. 23); its `_check_doy` call
raises `ValueError` outside 1-366. -/
noncomputable def inv_rel_dist_earth_sun (day_of_year : ℤ) : Except String ℝ :=
  (check_doy day_of_year).bind fun _ =>
    .ok (1 + 0.033 * Real.cos (2.0 * Real.pi / 365.0 * (day_of_year : ℝ)))

/-- Embeds `sol_dec` (step 12, eq. 24); its `_check_doy` call raises
`ValueError` outside 1-366. -/
noncomputable def sol_dec (day_of_year : ℤ) : Except String ℝ :=
  (check_doy day_of_year).bind fun _ =>
    .ok (0.409 * Real.sin (2.0 * Real.pi / 365.0 * (day_of_year : ℝ) - 1.39))

/-- Embeds `sunset_hour_angle` (step 14, eq. 26): after the latitude and
solar-declination range checks, `acos` of `-tan(lat) * tan(sol_dec)` clamped
into the `acos` domain `[-1, 1]`. -/
noncomputable def sunset_hour_angle (latitude sol_dec : ℝ) : Except String ℝ :=
  (check_latitude_rad latitude).bind fun _ =>
    (check_sol_dec_rad sol_dec).bind fun _ =>
      .ok (Real.arccos (min (max (-Real.tan latitude * Real.tan sol_dec) (-1.0)) 1.0))

/-- Embeds `et_rad` (step 15, eq. 27): extraterrestrial radiation. -/
noncomputable def et_rad (latitude sol_dec sha ird : ℝ) : Except String ℝ :=
  (check_latitude_rad latitude).bind fun _ =>
    (check_sol_dec_rad sol_dec).bind fun _ =>
      (check_sunset_hour_angle_rad sha).bind fun _ =>
        .ok (24.0 * 60.0 / Real.pi * SOLAR_CONSTANT * ird *
          (sha * Real.sin latitude * Real.sin sol_dec +
            Real.cos latitude * Real.cos sol_dec * Real.sin sha))

/-- Embeds `cs_rad` (step 16, eq. 28): clear sky radiation. -/
noncomputable def cs_rad (altitude et_rad : ℝ) : ℝ :=
  (0.00002 * altitude + 0.75) * et_rad

/-- Embeds `net_in_sol_rad` (step 17, eq. 29): net incoming shortwave
radiation. -/
noncomputable def net_in_sol_rad (sol_rad albedo : ℝ) : ℝ := (1 - albedo) * sol_rad

/-- Mean of a two-element list, as computed by `statistics.mean` /
`numpy.mean` in the source. -/
noncomputable def mean2 (a b : ℝ) : ℝ := (a + b) / 2

/-- Embeds `net_out_lw_rad` (step 18, eq. 30): net outgoing longwave
radiation. -/
noncomputable def net_out_lw_rad (tmin tmax sol_rad cs_rad avp : ℝ) : ℝ :=
  STEFAN_BOLTZMANN_CONSTANT * mean2 (tmax ^ 4) (tmin ^ 4) *
    (0.34 - 0.14 * Real.sqrt avp) * (1.35 * (sol_rad / cs_rad) - 0.35)

/-- Embeds `net_rad` (step 19, eq. 31): net radiation. -/
noncomputable def net_rad (net_solar lw_rad : ℝ) : ℝ := net_solar - lw_rad

/-- Embeds `net_rad_eto` (step 19, eq. 32): net radiation as equivalent
evaporation. -/
noncomputable def net_rad_eto (net_rad : ℝ) : ℝ := net_rad * 0.408

open Classical in
/-- Python's `round` builtin on a real value: nearest integer, ties to
even. -/
noncomputable def pyroundR (x : ℝ) : ℤ :=
  if x - (⌊x⌋ : ℝ) < 1 / 2 then ⌊x⌋
  else if 1 / 2 < x - (⌊x⌋ : ℝ) then ⌊x⌋ + 1
  else if ⌊x⌋ % 2 = 0 then ⌊x⌋ else ⌊x⌋ + 1

/-- Python's `round(x, 1)`: round to one decimal place, ties to even. -/
noncomputable def round1 (x : ℝ) : ℝ := (pyroundR (x * 10) : ℝ) / 10

/-- Embeds `eto` (final step, eq. 35): the final reference evapotranspiration
value, `round(wind_term + rad_term, 1)`. -/
noncomputable def eto (wind_term rad_term : ℝ) : ℝ := round1 (wind_term + rad_term)

/-- Embeds `radiation_term` (final step, eq. 33). -/
noncomputable def radiation_term (delta_term net_rad : ℝ) : ℝ := delta_term * net_rad

/-- Embeds `wind_term` (final step, eq. 34). -/
noncomputable def wind_term (psi_term temp_term actual_vp mean_sat_vp : ℝ) : ℝ :=
  psi_term * temp_term * (mean_sat_vp - actual_vp)

/-- The `_calc_data` inputs of `ETOApiClient.calc_eto` at the start of the
calculation (as populated by `__init__` and `collect_calculation_data` of
`eto_irrigation/api.py`): normalized weather readings, site constants and the
day of the year. -/
structure WeatherInputs : Type where
  temp_min : ℝ
  temp_max : ℝ
  humidity_min : ℝ
  humidity_max : ℝ
  wind : ℝ
  solar_rad : ℝ
  albedo : ℝ
  latitude : ℝ
  elevation : ℝ
  day_of_year : ℤ

/-- The calculation trace written into `_calc_data` by a successful run of
`ETOApiClient.calc_eto`: one entry per `CALC_*` key of
`eto_irrigation/const.py`. -/
structure EtoTrace : Type where
  s1_5 : ℝ
  s2_6 : ℝ
  s3_7 : ℝ
  s4_9 : ℝ
  s5_10 : ℝ
  s6_11 : ℝ
  s7_12 : ℝ
  s8_13 : ℝ
  s9_14 : ℝ
  s10_16 : ℝ
  s10_17 : ℝ
  s10_18 : ℝ
  s11_19 : ℝ
  s12_23 : ℝ
  s12_24 : ℝ
  s13_25 : ℝ
  s14_26 : ℝ
  s15_27 : ℝ
  s16_28 : ℝ
  s17_29 : ℝ
  s18_30 : ℝ
  s19_31 : ℝ
  s19_32 : ℝ
  fs_33 : ℝ
  fs_34 : ℝ
  fseto_35 : ℝ

/-- Embeds `ETOApiClient.calc_eto` (`eto_irrigation/api.py`): the 19-step
FAO-56 Penman-Monteith chain, executed in source order; the fallible steps
(12, 14 and 15) abort the whole run with the raised `ValueError`. -/
noncomputable def calc_eto (w : WeatherInputs) : Except String EtoTrace :=
  let s1_5 := mean2 w.temp_min w.temp_max
  let s2_6 := w.solar_rad * 0.0864
  let s3_7 := wind_speed w.wind 10
  let s4_9 := delta_svp s1_5
  let s5_10 := atm_pressure w.elevation
  let s6_11 := psy_const s5_10
  let s7_12 := delta_term s4_9 s6_11 s3_7
  let s8_13 := psi_term s4_9 s6_11 s3_7
  let s9_14 := temperature_term s1_5 s3_7
  let s10_16 := svp_from_t w.temp_max
  let s10_17 := svp_from_t w.temp_min
  let s10_18 := mean2 s10_16 s10_17
  let s11_19 := mean2 (ea_from_rh s10_16 w.humidity_min)
    (ea_from_rh s10_17 w.humidity_max)
  (inv_rel_dist_earth_sun w.day_of_year).bind fun s12_23 =>
    (sol_dec w.day_of_year).bind fun s12_24 =>
      let s13_25 := deg2rad w.latitude
      (sunset_hour_angle s13_25 s12_24).bind fun s14_26 =>
        (et_rad s13_25 s12_24 s14_26 s12_23).bind fun s15_27 =>
          let s16_28 := cs_rad w.elevation s15_27
          let s17_29 := net_in_sol_rad s2_6 w.albedo
          let s18_30 := net_out_lw_rad (c_to_k w.temp_min) (c_to_k w.temp_max)
            s2_6 s16_28 s11_19
          let s19_31 := net_rad s17_29 s18_30
          let s19_32 := net_rad_eto s19_31
          let fs_33 := radiation_term s7_12 s19_32
          let fs_34 := wind_term s8_13 s9_14 s11_19 s10_18
          let fseto_35 := eto fs_34 fs_33
          .ok { s1_5 := s1_5, s2_6 := s2_6, s3_7 := s3_7, s4_9 := s4_9,
                s5_10 := s5_10, s6_11 := s6_11, s7_12 := s7_12, s8_13 := s8_13,
                s9_14 := s9_14, s10_16 := s10_16, s10_17 := s10_17,
                s10_18 := s10_18, s11_19 := s11_19, s12_23 := s12_23,
                s12_24 := s12_24, s13_25 := s13_25, s14_26 := s14_26,
                s15_27 := s15_27, s16_28 := s16_28, s17_29 := s17_29,
                s18_30 := s18_30, s19_31 := s19_31, s19_32 := s19_32,
                fs_33 := fs_33, fs_34 := fs_34, fseto_35 := fseto_35 }

/-- C5: the day-of-year domain check used by the step-12 computations fails
(raises `ValueError`) for `day_of_year = 0` and `day_of_year = 367` in both
`inv_rel_dist_earth_sun` and `sol_dec`, and succeeds (no error) for
`day_of_year = 1` and `day_of_year = 366`. -/
theorem doy_domain_check :
    (∃ m, inv_rel_dist_earth_sun 0 = .error m) ∧
    (∃ m, sol_dec 0 = .error m) ∧
    (∃ m, inv_rel_dist_earth_sun 367 = .error m) ∧
    (∃ m, sol_dec 367 = .error m) ∧
    (∃ x, inv_rel_dist_earth_sun 1 = .ok x) ∧
    (∃ x, sol_dec 1 = .ok x) ∧
    (∃ x, inv_rel_dist_earth_sun 366 = .ok x) ∧
    (∃ x, sol_dec 366 = .ok x) :=
  ⟨⟨_, rfl⟩, ⟨_, rfl⟩, ⟨_, rfl⟩, ⟨_, rfl⟩, ⟨_, rfl⟩, ⟨_, rfl⟩, ⟨_, rfl⟩, ⟨_, rfl⟩⟩

/-- C8: the wind-speed height normalization computes
`u2 = u_h * 4.87 / ln(67.8 * h - 5.42)`, and for every fixed measurement
height `h` with `67.8 * h - 5.42 > 1` the result is strictly increasing in
the raw wind speed `u_h`. -/
theorem wind_speed_strict_mono (h u₁ u₂ : ℝ)
    (hh : 1 < 67.8 * h - 5.42) (hu : u₁ < u₂) :
    wind_speed u₁ h = u₁ * 4.87 / Real.log (67.8 * h - 5.42) ∧
    wind_speed u₁ h < wind_speed u₂ h := by
  have hlog : 0 < Real.log (67.8 * h - 5.42) := Real.log_pos hh
  refine ⟨rfl, ?_⟩
  unfold wind_speed
  exact (div_lt_div_iff_of_pos_right hlog).mpr
    (mul_lt_mul_of_pos_right hu (by norm_num))

/-- Witness for `wind_speed_strict_mono` at `h = 2`, `u₁ = 0`, `u₂ = 1`. -/
theorem wind_speed_strict_mono_witness :
    ((1 : ℝ) < 67.8 * 2 - 5.42) ∧ ((0 : ℝ) < 1) ∧
    (wind_speed 0 2 = 0 * 4.87 / Real.log (67.8 * 2 - 5.42) ∧
      wind_speed 0 2 < wind_speed 1 2) :=
  ⟨by norm_num, by norm_num,
    wind_speed_strict_mono 2 0 1 (by norm_num) (by norm_num)⟩

/-- C7: for every latitude `φ` in `[-π/2, π/2]` and every solar declination
`δ` within ±23.5° in radians, `sunset_hour_angle` passes its range checks and
returns `acos` of `-tan(φ)·tan(δ)` clamped to `[-1, 1]`; the clamped `acos`
argument lies in the valid domain `[-1, 1]` and the returned angle `ωs` lies
in `[0, π]`. -/
theorem sunset_hour_angle_domain (φ δ : ℝ)
    (h1 : -(Real.pi / 2) ≤ φ) (h2 : φ ≤ Real.pi / 2)
    (h3 : deg2rad (-23.5) ≤ δ) (h4 : δ ≤ deg2rad 23.5) :
    sunset_hour_angle φ δ =
      .ok (Real.arccos (min (max (-Real.tan φ * Real.tan δ) (-1)) 1)) ∧
    -1 ≤ min (max (-Real.tan φ * Real.tan δ) (-1)) 1 ∧
    min (max (-Real.tan φ * Real.tan δ) (-1)) 1 ≤ 1 ∧
    0 ≤ Real.arccos (min (max (-Real.tan φ * Real.tan δ) (-1)) 1) ∧
    Real.arccos (min (max (-Real.tan φ * Real.tan δ) (-1)) 1) ≤ Real.pi := by
  have hminl : MINLAT_RADIANS = -(Real.pi / 2) := by
    unfold MINLAT_RADIANS deg2rad
    norm_num
    ring
  have hmaxl : MAXLAT_RADIANS = Real.pi / 2 := by
    unfold MAXLAT_RADIANS deg2rad
    norm_num
    ring
  refine ⟨?_, le_min (le_max_right _ _) (by norm_num), min_le_right _ _,
    Real.arccos_nonneg _, Real.arccos_le_pi _⟩
  unfold sunset_hour_angle check_latitude_rad check_sol_dec_rad
    MINSOLDEC_RADIANS MAXSOLDEC_RADIANS
  rw [hminl, hmaxl, if_pos ⟨h1, h2⟩, if_pos ⟨h3, h4⟩]
  norm_num
  rfl

/-- Witness for `sunset_hour_angle_domain` at `φ = 0`, `δ = 0`. -/
theorem sunset_hour_angle_domain_witness :
    (-(Real.pi / 2) ≤ (0 : ℝ)) ∧ (deg2rad (-23.5) ≤ (0 : ℝ)) ∧
    (sunset_hour_angle 0 0 =
        .ok (Real.arccos (min (max (-Real.tan 0 * Real.tan 0) (-1)) 1)) ∧
      -1 ≤ min (max (-Real.tan 0 * Real.tan 0) (-1)) 1 ∧
      min (max (-Real.tan 0 * Real.tan 0) (-1)) 1 ≤ 1 ∧
      0 ≤ Real.arccos (min (max (-Real.tan 0 * Real.tan 0) (-1)) 1) ∧
      Real.arccos (min (max (-Real.tan 0 * Real.tan 0) (-1)) 1) ≤ Real.pi) :=
  ⟨neg_nonpos.mpr (by positivity), by
      unfold deg2rad
      nlinarith [Real.pi_pos],
    sunset_hour_angle_domain 0 0 (neg_nonpos.mpr (by positivity))
      (by positivity)
      (by unfold deg2rad; nlinarith [Real.pi_pos])
      (by unfold deg2rad; nlinarith [Real.pi_pos])⟩


/-- Reduction of `Except.bind` on a success value. -/
lemma exceptBind_ok {ε α β : Type} (a : α) (f : α → Except ε β) :
    (Except.ok a : Except ε α).bind f = f a := rfl

/-- Reduction of `Except.bind` on an error value. -/
lemma exceptBind_error {ε α β : Type} (m : ε) (f : α → Except ε β) :
    (Except.error m : Except ε α).bind f = .error m := rfl

/-- A run of `calc_eto` succeeds whenever the day of the year is in 1-366 and
the latitude (in degrees) is in `[-90, 90]`: the step-12 checks pass by the
hypotheses, the solar-declination magnitude `0.409 * |sin _|` never exceeds
`deg2rad 23.5`, and the clamped `acos` always lies in `[0, π]`. -/
lemma calc_eto_ok_of_valid (w : WeatherInputs)
    (hd1 : 1 ≤ w.day_of_year) (hd2 : w.day_of_year ≤ 366)
    (hl1 : -90 ≤ w.latitude) (hl2 : w.latitude ≤ 90) :
    ∃ t, calc_eto w = .ok t := by
  have hdoy : check_doy w.day_of_year = .ok () := by
    unfold check_doy
    rw [if_pos ⟨hd1, hd2⟩]
  have hird : inv_rel_dist_earth_sun w.day_of_year =
      .ok (1 + 0.033 * Real.cos (2.0 * Real.pi / 365.0 * (w.day_of_year : ℝ))) := by
    unfold inv_rel_dist_earth_sun
    rw [hdoy, exceptBind_ok]
  have hsd : sol_dec w.day_of_year =
      .ok (0.409 * Real.sin (2.0 * Real.pi / 365.0 * (w.day_of_year : ℝ) - 1.39)) := by
    unfold sol_dec
    rw [hdoy, exceptBind_ok]
  have hpi : (0 : ℝ) < Real.pi := Real.pi_pos
  have hlat : check_latitude_rad (deg2rad w.latitude) = .ok () := by
    unfold check_latitude_rad MINLAT_RADIANS MAXLAT_RADIANS deg2rad
    rw [if_pos]
    constructor
    · nlinarith
    · nlinarith
  have hsin1 := Real.neg_one_le_sin (2.0 * Real.pi / 365.0 * (w.day_of_year : ℝ) - 1.39)
  have hsin2 := Real.sin_le_one (2.0 * Real.pi / 365.0 * (w.day_of_year : ℝ) - 1.39)
  have hpi314 : (3.14 : ℝ) < Real.pi := Real.pi_gt_d2
  have hsold : check_sol_dec_rad
      (0.409 * Real.sin (2.0 * Real.pi / 365.0 * (w.day_of_year : ℝ) - 1.39)) =
      .ok () := by
    unfold check_sol_dec_rad MINSOLDEC_RADIANS MAXSOLDEC_RADIANS deg2rad
    rw [if_pos]
    constructor
    · nlinarith
    · nlinarith
  have hsha : sunset_hour_angle (deg2rad w.latitude)
      (0.409 * Real.sin (2.0 * Real.pi / 365.0 * (w.day_of_year : ℝ) - 1.39)) =
      .ok (Real.arccos (min (max (-Real.tan (deg2rad w.latitude) *
          Real.tan (0.409 * Real.sin
            (2.0 * Real.pi / 365.0 * (w.day_of_year : ℝ) - 1.39))) (-1.0)) 1.0)) := by
    unfold sunset_hour_angle
    rw [hlat, exceptBind_ok, hsold, exceptBind_ok]
  have hmaxsha : MAXSHA_RADIANS = Real.pi := by
    unfold MAXSHA_RADIANS deg2rad
    norm_num
    ring
  have hshac : check_sunset_hour_angle_rad
      (Real.arccos (min (max (-Real.tan (deg2rad w.latitude) *
        Real.tan (0.409 * Real.sin
          (2.0 * Real.pi / 365.0 * (w.day_of_year : ℝ) - 1.39))) (-1.0)) 1.0)) =
      .ok () := by
    have harc1 := Real.arccos_nonneg (min (max (-Real.tan (deg2rad w.latitude) *
      Real.tan (0.409 * Real.sin
        (2.0 * Real.pi / 365.0 * (w.day_of_year : ℝ) - 1.39))) (-1.0)) 1.0)
    have harc2 := Real.arccos_le_pi (min (max (-Real.tan (deg2rad w.latitude) *
      Real.tan (0.409 * Real.sin
        (2.0 * Real.pi / 365.0 * (w.day_of_year : ℝ) - 1.39))) (-1.0)) 1.0)
    unfold check_sunset_hour_angle_rad MINSHA_RADIANS
    rw [hmaxsha, if_pos]
    constructor
    · linarith
    · linarith
  have het : et_rad (deg2rad w.latitude)
      (0.409 * Real.sin (2.0 * Real.pi / 365.0 * (w.day_of_year : ℝ) - 1.39))
      (Real.arccos (min (max (-Real.tan (deg2rad w.latitude) *
        Real.tan (0.409 * Real.sin
          (2.0 * Real.pi / 365.0 * (w.day_of_year : ℝ) - 1.39))) (-1.0)) 1.0))
      (1 + 0.033 * Real.cos (2.0 * Real.pi / 365.0 * (w.day_of_year : ℝ))) =
      .ok (24.0 * 60.0 / Real.pi * SOLAR_CONSTANT *
        (1 + 0.033 * Real.cos (2.0 * Real.pi / 365.0 * (w.day_of_year : ℝ))) *
        ((Real.arccos (min (max (-Real.tan (deg2rad w.latitude) *
            Real.tan (0.409 * Real.sin
              (2.0 * Real.pi / 365.0 * (w.day_of_year : ℝ) - 1.39))) (-1.0)) 1.0)) *
          Real.sin (deg2rad w.latitude) *
          Real.sin (0.409 * Real.sin
            (2.0 * Real.pi / 365.0 * (w.day_of_year : ℝ) - 1.39)) +
          Real.cos (deg2rad w.latitude) *
          Real.cos (0.409 * Real.sin
            (2.0 * Real.pi / 365.0 * (w.day_of_year : ℝ) - 1.39)) *
          Real.sin (Real.arccos (min (max (-Real.tan (deg2rad w.latitude) *
            Real.tan (0.409 * Real.sin
              (2.0 * Real.pi / 365.0 * (w.day_of_year : ℝ) - 1.39))) (-1.0)) 1.0)))) := by
    unfold et_rad
    rw [hlat, exceptBind_ok, hsold, exceptBind_ok, hshac, exceptBind_ok]
  rcases hres : calc_eto w with m | t
  · rw [calc_eto] at hres
    simp only [hird, hsd, hsha, het, exceptBind_ok] at hres
    exact Except.noConfusion hres
  · exact ⟨t, rfl⟩

/-- C1: for every successful run of `calc_eto`, the final trace entry equals
`round(Radiation term + Wind term, 1)` where the radiation term is `DT · Rng`
(the product of the step-7 and step-19 trace entries) and the wind term is
`PT · TT · (es − ea)` (the step-8, step-9, step-10-mean and step-11 trace
entries). -/
theorem eto_final_step (w : WeatherInputs) (t : EtoTrace)
    (h : calc_eto w = .ok t) :
    t.fseto_35 = round1 (t.fs_33 + t.fs_34) ∧
    t.fs_33 = t.s7_12 * t.s19_32 ∧
    t.fs_34 = t.s8_13 * t.s9_14 * (t.s10_18 - t.s11_19) := by
  rw [calc_eto] at h
  rcases h1 : inv_rel_dist_earth_sun w.day_of_year with m | v1
  · rw [h1, exceptBind_error] at h
    exact Except.noConfusion h
  rw [h1] at h
  simp only [exceptBind_ok] at h
  rcases h2 : sol_dec w.day_of_year with m | v2
  · rw [h2, exceptBind_error] at h
    exact Except.noConfusion h
  rw [h2] at h
  simp only [exceptBind_ok] at h
  rcases h3 : sunset_hour_angle (deg2rad w.latitude) v2 with m | v3
  · rw [h3, exceptBind_error] at h
    exact Except.noConfusion h
  rw [h3] at h
  simp only [exceptBind_ok] at h
  rcases h4 : et_rad (deg2rad w.latitude) v2 v3 v1 with m | v4
  · rw [h4, exceptBind_error] at h
    exact Except.noConfusion h
  rw [h4] at h
  simp only [exceptBind_ok] at h
  injection h with h
  subst h
  exact ⟨congrArg round1 (add_comm _ _), rfl, rfl⟩

/-- Witness for `eto_final_step` at the spec's end-to-end scenario
(`temp_min = 15`, `temp_max = 25`, `humidity_min = 0.4`,
`humidity_max = 0.8`, `wind = 2`, `solar_rad = 18`, `albedo = 0.23`,
`latitude = 51.5`, `elevation = 50`, `day_of_year = 180`). -/
theorem eto_final_step_witness :
    ∃ t, calc_eto ⟨15, 25, 0.4, 0.8, 2, 18, 0.23, 51.5, 50, 180⟩ = .ok t ∧
      (t.fseto_35 = round1 (t.fs_33 + t.fs_34) ∧
        t.fs_33 = t.s7_12 * t.s19_32 ∧
        t.fs_34 = t.s8_13 * t.s9_14 * (t.s10_18 - t.s11_19)) := by
  obtain ⟨t, ht⟩ := calc_eto_ok_of_valid
    ⟨15, 25, 0.4, 0.8, 2, 18, 0.23, 51.5, 50, 180⟩
    (by decide) (by decide) (by norm_num) (by norm_num)
  exact ⟨t, ht, eto_final_step _ t ht⟩
